import Mathlib

/-!
Verification of the query/aggregation layer of the middleware dashboard
backend (a FastAPI + MongoDB service).  The definitions below are shallow
embeddings of the Python source:

* `clampLimit`, `clampSkip`, `listPageMeta`, `searchPageMeta` embed the
  pagination bookkeeping of `HyperBotController.get_users_data` and
  `HyperBotController.search_users_data` (controllers/HyperBotController.py).
* `build_search_query` embeds `HyperBotController.build_search_query`;
  `buildUserSearchPipelineMatch` embeds the `$match` stage built by
  `QueryBuilder.build_user_search_pipeline` (utils.py).
* `get_timeframe_filter` / `get_date_grouping` and the endpoint wrappers
  embed controllers/HyperBotAnalyticsController.py.
* `extract_jwt_from_request` / `verify_jwt_token` embed utils.py, with the
  PyJWT decoder abstracted as an oracle `String → DecodeResult`.
* `convert_object_ids` embeds the identical `convert_object_ids` methods of
  both controllers, over a syntax tree of BSON-like documents.

Machine integers do not occur: all Python arithmetic here is on unbounded
`int`, modelled by `Nat`/`Int`.
-/

namespace Dashboard

/-! ## Pagination (controllers/HyperBotController.py)

`get_users_data` and `search_users_data` both start with

    limit = min(max(request.limit, 1), 100)
    skip  = max(request.skip, 0)

and then compute the metadata fields returned to the client.  The request
values are arbitrary Python ints, so they are taken as `Int` here; the
clamped values are the `Nat`s actually used.  -/

def clampLimit (reqLimit : Int) : Nat := (min (max reqLimit 1) 100).toNat

def clampSkip (reqSkip : Int) : Nat := (max reqSkip 0).toNat

/-- The pagination fields both handlers return (ignoring the document list
and timestamps, which depend on the store). -/
structure PageMeta where
  current_page : Nat
  total_pages : Nat
  per_page : Nat
  has_next : Bool
  has_previous : Bool
  showing_from : Nat
  showing_to : Nat
deriving DecidableEq, Repr

/-- Metadata computed by `get_users_data` (the plain listing path),
lines 129-169 of controllers/HyperBotController.py. -/
def listPageMeta (totalCount : Nat) (reqLimit reqSkip : Int) : PageMeta :=
  let limit := clampLimit reqLimit
  let skip := clampSkip reqSkip
  { current_page := skip / limit + 1
  , total_pages := (totalCount + limit - 1) / limit
  , per_page := limit
  , has_next := decide (skip + limit < totalCount)
  , has_previous := decide (0 < skip)
  , showing_from := skip + 1
  , showing_to := min (skip + limit) totalCount }

/-- Metadata computed by `search_users_data` (the filtered search path),
lines 183-233 of controllers/HyperBotController.py.  It differs from the
listing path in its `total_count == 0` special cases:
`total_pages = ... if total_count > 0 else 1` and
`showing_from = skip + 1 if total_count > 0 else 0`. -/
def searchPageMeta (totalCount : Nat) (reqLimit reqSkip : Int) : PageMeta :=
  let limit := clampLimit reqLimit
  let skip := clampSkip reqSkip
  { current_page := skip / limit + 1
  , total_pages := if 0 < totalCount then (totalCount + limit - 1) / limit else 1
  , per_page := limit
  , has_next := decide (skip + limit < totalCount)
  , has_previous := decide (0 < skip)
  , showing_from := if 0 < totalCount then skip + 1 else 0
  , showing_to := min (skip + limit) totalCount }

/-! ## The filter predicates (controllers/HyperBotController.py and utils.py)

A MongoDB filter document is modelled syntactically, shaped exactly to the
forms the two builders produce.  A per-field condition: -/

inductive FieldCond where
  /-- `{field: "value"}` — exact equality against a string. -/
  | eqStr : String → FieldCond
  /-- `{"$regex": p, "$options": "i"}` — case-insensitive regex. -/
  | regexI : String → FieldCond
  /-- `{"$exists": True, "$ne": "", "$ne": None}`: a Python dict literal with
  a duplicate `"$ne"` key, whose later entry wins, so the condition sent to
  the store is `{"$exists": True, "$ne": None}`. -/
  | sessionPresent : FieldCond
  /-- `{"$exists": False}` -/
  | notSet : FieldCond
  /-- `{field: ""}` -/
  | eqEmpty : FieldCond
  /-- `{field: None}` -/
  | eqNull : FieldCond
  /-- `{"$gt": 0}` (platform filters of `build_user_search_pipeline`). -/
  | gtZero : FieldCond
deriving DecidableEq, Repr

/-- A value stored under a top-level key of the query document. -/
inductive QVal where
  | cond : FieldCond → QVal
  /-- `"$or": [ {f₁: c₁}, {f₂: c₂}, ... ]` -/
  | orC : List (String × FieldCond) → QVal
  /-- `"$and": [ {"$or": [...]}, {"$or": [...]}, ... ]` -/
  | andOrC : List (List (String × FieldCond)) → QVal
deriving DecidableEq, Repr

/-- A query document: top-level keys in insertion order. -/
abbrev Query := List (String × QVal)

/-- Python dict assignment `q[k] = v`: replaces in place when the key is
already present, otherwise appends. -/
def dictSet (q : Query) (k : String) (v : QVal) : Query :=
  if (q.find? (fun p => p.1 == k)).isSome then
    q.map (fun p => if p.1 == k then (k, v) else p)
  else
    q ++ [(k, v)]

/-- Lookup of a top-level key. -/
def qlookup (q : Query) (k : String) : Option QVal :=
  (q.find? (fun p => p.1 == k)).map (fun p => p.2)

/-- Python truthiness of an optional string parameter (`None` and `""` are
falsy). -/
def truthy : Option String → Bool
  | none => false
  | some s => s ≠ ""

/-- Python `str.lower()`, as a code-point map.  (The strings compared
against it in this code are ASCII, where the two coincide.) -/
def lowerStr (s : String) : String := String.mk (s.data.map Char.toLower)

/-! ### `datetime.strptime(date_filter, "%Y-%m-%d")`

CPython's `_strptime` compiles `"%Y-%m-%d"` to the anchored regex
`(?P<Y>\d\d\d\d)-(?P<m>1[0-2]|0[1-9]|[1-9])-(?P<d>3[01]|[12]\d|0[1-9]|[1-9])`
which must consume the whole string, and then `datetime(Y, m, d)` validates
the calendar (year ≥ 1, day within the month, Gregorian leap rule).
Digits are modelled as ASCII digits.  Splitting on `'-'` is equivalent to
that regex here because every field consists of digits only. -/

def splitDash : List Char → List (List Char)
  | [] => [[]]
  | c :: rest =>
    if c = '-' then [] :: splitDash rest
    else
      match splitDash rest with
      | [] => [[c]]
      | g :: gs => (c :: g) :: gs

def digitsToNat (cs : List Char) : Nat :=
  cs.foldl (fun a c => 10 * a + (c.toNat - '0'.toNat)) 0

def isLeapYear (y : Nat) : Bool :=
  (y % 4 = 0 && y % 100 ≠ 0) || y % 400 = 0

def daysInMonth (y m : Nat) : Nat :=
  if m = 2 then (if isLeapYear y then 29 else 28)
  else if m = 4 ∨ m = 6 ∨ m = 9 ∨ m = 11 then 30
  else 31

/-- `datetime.strptime(s, "%Y-%m-%d")`: `some (y, m, d)` on success,
`none` when a `ValueError` is raised. -/
def strptimeYmd (s : String) : Option (Nat × Nat × Nat) :=
  match splitDash s.data with
  | [ys, ms, ds] =>
    if ys.length = 4 ∧ ys.all Char.isDigit ∧
       1 ≤ ms.length ∧ ms.length ≤ 2 ∧ ms.all Char.isDigit ∧
       1 ≤ ds.length ∧ ds.length ≤ 2 ∧ ds.all Char.isDigit then
      let y := digitsToNat ys
      let m := digitsToNat ms
      let d := digitsToNat ds
      if 1 ≤ y ∧ 1 ≤ m ∧ m ≤ 12 ∧ 1 ≤ d ∧ d ≤ daysInMonth y m then
        some (y, m, d)
      else none
    else none
  | _ => none

def pad2 (n : Nat) : String := if n < 10 then "0" ++ toString n else toString n

def pad4 (n : Nat) : String :=
  if n < 10 then "000" ++ toString n
  else if n < 100 then "00" ++ toString n
  else if n < 1000 then "0" ++ toString n
  else toString n

/-- `date_obj.strftime("%Y-%m-%d")` after a successful parse. -/
def fmtYmd (y m d : Nat) : String := pad4 y ++ "-" ++ pad2 m ++ "-" ++ pad2 d

/-- The five identity/name fields searched by both builders. -/
def searchFields : List String :=
  [ "User Info.user_id"
  , "User Info.username"
  , "User Info.nama_depan"
  , "Data Lengkap Sesi.Basic Information.Username"
  , "Data Lengkap Sesi.Basic Information.First Name" ]

/-- The membership alias table of `build_search_query`
(`membership_mapping.get(membership_filter.lower(), membership_filter)`). -/
def membershipMapping (s : String) : Option String :=
  if s = "freemium" then some "Freemium"
  else if s = "trial" then some "Trial"
  else if s = "premium" then some "Premium"
  else if s = "plus" then some "Plus"
  else if s = "vip" then some "VIP"
  else if s = "zenith" then some "Zenith"
  else none

def sessionPresentClauses : List (String × FieldCond) :=
  [ ("User Info.session_string", FieldCond.sessionPresent)
  , ("Data Lengkap Sesi.Session Info.session_string", FieldCond.sessionPresent)
  , ("Data Lengkap Sesi.Session Info.Session String", FieldCond.sessionPresent) ]

def sessionAbsentGroups : List (List (String × FieldCond)) :=
  [ [ ("User Info.session_string", FieldCond.notSet)
    , ("User Info.session_string", FieldCond.eqEmpty)
    , ("User Info.session_string", FieldCond.eqNull) ]
  , [ ("Data Lengkap Sesi.Session Info.session_string", FieldCond.notSet)
    , ("Data Lengkap Sesi.Session Info.session_string", FieldCond.eqEmpty)
    , ("Data Lengkap Sesi.Session Info.session_string", FieldCond.eqNull) ]
  , [ ("Data Lengkap Sesi.Session Info.Session String", FieldCond.notSet)
    , ("Data Lengkap Sesi.Session Info.Session String", FieldCond.eqEmpty)
    , ("Data Lengkap Sesi.Session Info.Session String", FieldCond.eqNull) ] ]

/-- `HyperBotController.build_search_query` (lines 47-121).  Each `if`
mirrors one block of the Python function, in source order; note that the
`search_query` block and the `with_session` block both assign to the same
top-level key `"$or"`, and that the regex pattern is the raw
`search_query` string (no `re.escape`). -/
def build_search_query (search_query date_filter membership_filter
    session_filter : Option String) : Query :=
  let q : Query := []
  let q :=
    if truthy search_query then
      dictSet q "$or"
        (QVal.orC (searchFields.map
          (fun f => (f, FieldCond.regexI (search_query.getD "")))))
    else q
  let q :=
    if truthy date_filter then
      match strptimeYmd (date_filter.getD "") with
      | some (y, m, d) =>
        dictSet q "User Info.waktu_ditambahkan"
          (QVal.cond (FieldCond.regexI ("^" ++ fmtYmd y m d)))
      | none => q
    else q
  let q :=
    if truthy membership_filter then
      let mf := membership_filter.getD ""
      dictSet q "Membership.tier"
        (QVal.cond (FieldCond.eqStr ((membershipMapping (lowerStr mf)).getD mf)))
    else q
  if session_filter = some "with_session" then
    dictSet q "$or" (QVal.orC sessionPresentClauses)
  else if session_filter = some "without_session" then
    dictSet q "$and" (QVal.andOrC sessionAbsentGroups)
  else q

/-! ### `re.escape` and `QueryBuilder.build_user_search_pipeline` (utils.py) -/

/-- The characters CPython 3.7+ `re.escape` prepends a backslash to. -/
def reSpecialChars : List Char :=
  ['(', ')', '[', ']', '{', '}', '?', '*', '+', '-', '|', '^', '$',
   '\\', '.', '&', '~', '#', ' ', '\t', '\n', '\r', '\x0b', '\x0c']

/-- `re.escape`. -/
def reEscape (s : String) : String :=
  String.mk (s.data.foldr
    (fun c acc => if c ∈ reSpecialChars then '\\' :: c :: acc else c :: acc) [])

/-- The `match_conditions` document built by
`QueryBuilder.build_user_search_pipeline` (utils.py lines 173-213): same
shape as `build_search_query` for text and date, but the search text goes
through `re.escape`, the membership filter is used directly (no alias
table), and the fourth parameter is a platform filter. -/
def buildUserSearchPipelineMatch (search_query date_filter membership_filter
    platform_filter : Option String) : Query :=
  let q : Query := []
  let q :=
    if truthy search_query then
      dictSet q "$or"
        (QVal.orC (searchFields.map
          (fun f => (f, FieldCond.regexI (reEscape (search_query.getD ""))))))
    else q
  let q :=
    if truthy date_filter then
      match strptimeYmd (date_filter.getD "") with
      | some (y, m, d) =>
        dictSet q "User Info.waktu_ditambahkan"
          (QVal.cond (FieldCond.regexI ("^" ++ fmtYmd y m d)))
      | none => q
    else q
  let q :=
    if truthy membership_filter then
      dictSet q "Membership.tier"
        (QVal.cond (FieldCond.eqStr (membership_filter.getD "")))
    else q
  if platform_filter = some "telegram" then
    dictSet q "Bot Usage.Telegram.telegram_usage" (QVal.cond FieldCond.gtZero)
  else if platform_filter = some "tiktok" then
    dictSet q "Bot Usage.TikTok.tiktok_usage" (QVal.cond FieldCond.gtZero)
  else if platform_filter = some "instagram" then
    dictSet q "Bot Usage.Instagram.instagram_usage" (QVal.cond FieldCond.gtZero)
  else if platform_filter = some "doodstream" then
    dictSet q "Bot Usage.Doodstream.doodstream_usage" (QVal.cond FieldCond.gtZero)
  else q

/-! ## Analytics endpoints (controllers/HyperBotAnalyticsController.py)

`fastapi.HTTPException` subclasses `Exception`, so the blanket
`except Exception as e: raise HTTPException(status_code=500, ...)` at the
end of every endpoint also catches `HTTPException`s raised inside the
`try` body.  An endpoint body is modelled in the `Except HTTPError` monad
and the blanket handler as `catchAll500`; the store calls themselves are
external and always succeed in this model, which is the case the claims
are about. -/

structure HTTPError where
  status : Nat
  detail : String
deriving DecidableEq, Repr

/-- `str(e)` for a `starlette` `HTTPException` is
`f"{status_code}: {detail}"`. -/
def errString (e : HTTPError) : String := toString e.status ++ ": " ++ e.detail

/-- `except Exception as e: raise HTTPException(status_code=500,
detail=msgPre + str(e))`. -/
def catchAll500 {α : Type} (msgPre : String) :
    Except HTTPError α → Except HTTPError α
  | Except.ok a => Except.ok a
  | Except.error e => Except.error ⟨500, msgPre ++ errString e⟩

def validTimeframes : List String := ["1d", "3d", "7d", "30d", "90d"]

def timeframeDays (t : String) : Nat :=
  if t = "1d" then 1
  else if t = "3d" then 3
  else if t = "7d" then 7
  else if t = "30d" then 30
  else 90

/-- `HyperBotAnalyticsController.get_timeframe_filter` (lines 42-57): the
returned lower time bound is represented by the span in days; an unknown
timeframe raises `HTTPException(status_code=400, detail="Invalid
timeframe")`. -/
def get_timeframe_filter (timeframe : String) : Except HTTPError Nat :=
  if timeframe ∈ validTimeframes then Except.ok (timeframeDays timeframe)
  else Except.error ⟨400, "Invalid timeframe"⟩

/-- `HyperBotAnalyticsController.get_date_grouping` (lines 59-66). -/
def get_date_grouping (timeframe : String) : String :=
  if timeframe ∈ ["1d", "3d"] then "%Y-%m-%d %H:00"
  else if timeframe ∈ ["7d", "30d"] then "%Y-%m-%d"
  else "%Y-%m"

/-- `get_analytics_overview`: the only timeframe-dependent control flow is
`get_timeframe_filter` / `get_date_grouping` inside the `try`; the result
value stands for the composed response. -/
def get_analytics_overview (timeframe : String) : Except HTTPError (Nat × String) :=
  catchAll500 "Failed to get analytics overview: " (do
    let d ← get_timeframe_filter timeframe
    pure (d, get_date_grouping timeframe))

/-- `get_daily_active_users`: its `try` body never consults
`request.timeframe` (the window is always the current calendar day in
Asia/Jakarta), so no timeframe validation happens on this path. -/
def get_daily_active_users (_timeframe : String) : Except HTTPError Nat :=
  catchAll500 "Failed to get daily active users: " (Except.ok 0)

/-- `get_command_stats`. -/
def get_command_stats (timeframe : String) : Except HTTPError Nat :=
  catchAll500 "Failed to get command stats: " (do
    let d ← get_timeframe_filter timeframe
    pure d)

/-- `get_url_stats`. -/
def get_url_stats (timeframe : String) : Except HTTPError Nat :=
  catchAll500 "Failed to get URL stats: " (do
    let d ← get_timeframe_filter timeframe
    pure d)

/-- `get_analytics_summary`: `asyncio.gather` over the four sub-endpoints
propagates the first exception, which the summary's own blanket handler
re-wraps once more. -/
def get_analytics_summary (timeframe : String) : Except HTTPError Nat :=
  catchAll500 "Failed to get analytics summary: " (do
    let o ← get_analytics_overview timeframe
    let u ← get_daily_active_users timeframe
    let c ← get_command_stats timeframe
    let r ← get_url_stats timeframe
    pure (o.1 + u + c + r))

/-! ## Token verification (utils.py)

Requests are represented by their `authorization` and `cookie` headers
(`None` when absent).  String comparisons are on code points (`List Char`),
matching Python string indexing.  The PyJWT decoder is abstracted as an
oracle `String → DecodeResult`; its constructors are the outcomes the
`except` clauses of `verify_jwt_token` distinguish. -/

def leadsWith : List Char → List Char → Bool
  | [], _ => true
  | _ :: _, [] => false
  | p :: ps, c :: cs => p == c && leadsWith ps cs

/-- `re.search(r"auth-token=([^;]+)", cookie_header)`: scan start positions
left to right; a match needs at least one non-`';'` character after the
key, and the captured group is the maximal run of non-`';'` characters. -/
def findCookieToken : List Char → Option String
  | [] => none
  | l :: rest =>
    if leadsWith "auth-token=".data (l :: rest) then
      let val := ((l :: rest).drop 11).takeWhile (fun c => c ≠ ';')
      if val.isEmpty then findCookieToken rest else some (String.mk val)
    else findCookieToken rest

/-- `extract_jwt_from_request` (utils.py lines 18-50): `Authorization`
header first (must be truthy and start with `"Bearer "`; the token is
`auth_header[7:]`), else the `auth-token` cookie, else `None`. -/
def extract_jwt_from_request (authHeader cookieHeader : Option String) :
    Option String :=
  let ah := (authHeader.getD "").data
  if ah ≠ [] ∧ leadsWith "Bearer ".data ah then some (String.mk (ah.drop 7))
  else
    let ch := (cookieHeader.getD "").data
    if ch ≠ [] then findCookieToken ch else none

structure JwtPayload where
  userId : Option String
deriving DecidableEq, Repr

/-- Outcome of `jwt.decode(token, JWT_SECRET, algorithms=["HS256"])`.
`invalid` covers `jwt.InvalidTokenError` and its subclasses other than
`ExpiredSignatureError` — including `InvalidSignatureError`, whose
dedicated `except` clause in the source is unreachable because the
`InvalidTokenError` clause precedes it. -/
inductive DecodeResult where
  | ok : JwtPayload → DecodeResult
  | expired : DecodeResult
  | invalid : String → DecodeResult
  | otherExc : String → DecodeResult
deriving DecidableEq, Repr

/-- `verify_jwt_token` (utils.py lines 51-135).  `if not token:` treats
both `None` and `""` as missing.  The `missing userId` `HTTPException`
raised inside the `try` is itself caught by the blanket
`except Exception` clause and re-wrapped (still as 401). -/
def verify_jwt_token (decode : String → DecodeResult)
    (authHeader cookieHeader : Option String) : Except HTTPError JwtPayload :=
  match extract_jwt_from_request authHeader cookieHeader with
  | none => Except.error ⟨401, "No authentication token found. Please login first."⟩
  | some t =>
    if t = "" then
      Except.error ⟨401, "No authentication token found. Please login first."⟩
    else
      match decode t with
      | DecodeResult.ok p =>
        if truthy p.userId then Except.ok p
        else Except.error ⟨401,
          "Token verification failed: 401: Invalid token: missing userId"⟩
      | DecodeResult.expired =>
        Except.error ⟨401, "Token has expired. Please login again."⟩
      | DecodeResult.invalid m =>
        Except.error ⟨401, "Invalid token: " ++ m⟩
      | DecodeResult.otherExc m =>
        Except.error ⟨401, "Token verification failed: " ++ m⟩

def hasSubstrAux (needle : List Char) : List Char → Bool
  | [] => needle.isEmpty
  | c :: rest => leadsWith needle (c :: rest) || hasSubstrAux needle rest

def hasSubstr (hay needle : String) : Bool := hasSubstrAux needle.data hay.data

/-! ## Identifier normalization (`convert_object_ids`)

Both controllers define the identical method (HyperBotController.py lines
35-45, HyperBotAnalyticsController.py lines 30-40).  The nested document
values it can meet are modelled by the mutual syntax below (`oid` is a
`bson.ObjectId` carrying its hex string). -/

mutual
inductive BVal where
  | oid : String → BVal
  | strV : String → BVal
  | intV : Int → BVal
  | boolV : Bool → BVal
  | nullV : BVal
  | dict : BFields → BVal
  | arr : BItems → BVal
inductive BFields where
  | nil : BFields
  | cons : String → BVal → BFields → BFields
inductive BItems where
  | nil : BItems
  | cons : BVal → BItems → BItems
end

mutual
/-- `convert_object_ids(doc)`: a non-dict argument is returned unchanged
(including a bare ObjectId). -/
def convert_object_ids : BVal → BVal
  | BVal.dict fs => BVal.dict (convertFields fs)
  | v => v
/-- The `for key, value in doc.items()` loop. -/
def convertFields : BFields → BFields
  | BFields.nil => BFields.nil
  | BFields.cons k v rest => BFields.cons k (convertEntry v) (convertFields rest)
/-- How one dict value is rewritten: ObjectId → its string; dict →
recursive call; list → per-item (dicts recursed, everything else kept);
anything else unchanged. -/
def convertEntry : BVal → BVal
  | BVal.oid s => BVal.strV s
  | BVal.dict fs => BVal.dict (convertFields fs)
  | BVal.arr xs => BVal.arr (convertItems xs)
  | v => v
/-- `[self.convert_object_ids(item) if isinstance(item, dict) else item
for item in value]`. -/
def convertItems : BItems → BItems
  | BItems.nil => BItems.nil
  | BItems.cons x rest => BItems.cons (convertItem x) (convertItems rest)
def convertItem : BVal → BVal
  | BVal.dict fs => BVal.dict (convertFields fs)
  | v => v
end

end Dashboard

namespace Dashboard

theorem clampLimit_pos (reqLimit : Int) : 1 ≤ clampLimit reqLimit := by
  unfold clampLimit
  rcases le_total reqLimit 1 with h | h <;> simp [max_def, min_def] <;> omega

theorem clampLimit_le (reqLimit : Int) : clampLimit reqLimit ≤ 100 := by
  unfold clampLimit
  rcases le_total reqLimit 1 with h | h <;> simp [max_def, min_def] <;> omega

end Dashboard

/-- C1: for every totalCount and arbitrary request values, after clamping
`limit` into `[1,100]` and `skip` into `≥ 0`, the metadata computed by
`get_users_data` satisfies `currentPage = skip/limit + 1` (integer
division), `totalPages = ⌈totalCount/limit⌉` (stated via Mathlib's
ceiling division `⌈/⌉`, together with its least-upper-bound
characterisation), `hasNext = (skip + limit < totalCount)`,
`hasPrevious = (skip > 0)` and `showingTo = min (skip + limit) totalCount`. -/
theorem get_users_data_pagination (totalCount : Nat) (reqLimit reqSkip : Int) :
    (Dashboard.listPageMeta totalCount reqLimit reqSkip).current_page
      = Dashboard.clampSkip reqSkip / Dashboard.clampLimit reqLimit + 1 ∧
    (Dashboard.listPageMeta totalCount reqLimit reqSkip).total_pages
      = totalCount ⌈/⌉ Dashboard.clampLimit reqLimit ∧
    (∀ n : Nat, (Dashboard.listPageMeta totalCount reqLimit reqSkip).total_pages ≤ n
      ↔ totalCount ≤ Dashboard.clampLimit reqLimit * n) ∧
    ((Dashboard.listPageMeta totalCount reqLimit reqSkip).has_next = true
      ↔ Dashboard.clampSkip reqSkip + Dashboard.clampLimit reqLimit < totalCount) ∧
    ((Dashboard.listPageMeta totalCount reqLimit reqSkip).has_previous = true
      ↔ 0 < Dashboard.clampSkip reqSkip) ∧
    (Dashboard.listPageMeta totalCount reqLimit reqSkip).showing_to
      = min (Dashboard.clampSkip reqSkip + Dashboard.clampLimit reqLimit) totalCount := by
  refine ⟨rfl, ?_, ?_, by simp [Dashboard.listPageMeta], by simp [Dashboard.listPageMeta], rfl⟩
  · rw [Nat.ceilDiv_eq_add_pred_div]; rfl
  · intro n
    have hpos : 0 < Dashboard.clampLimit reqLimit := Dashboard.clampLimit_pos reqLimit
    have h := ceilDiv_le_iff_le_mul (a := Dashboard.clampLimit reqLimit)
      (b := totalCount) (c := n) hpos
    rw [Nat.ceilDiv_eq_add_pred_div] at h
    exact h

open Dashboard

/-- Counterexample to C2: at `totalCount = 0` (with `limit = 50`,
`skip = 0`) the listing path reports `totalPages = 0` and
`showingFrom = 1` while the search path reports `totalPages = 1` and
`showingFrom = 0`, so the two paths do not agree at `totalCount = 0` as
the claim asserts. -/
theorem pagination_paths_differ_at_zero_count :
    (listPageMeta 0 50 0).total_pages = 0 ∧
    (searchPageMeta 0 50 0).total_pages = 1 ∧
    (listPageMeta 0 50 0).showing_from = 1 ∧
    (searchPageMeta 0 50 0).showing_from = 0 ∧
    listPageMeta 0 50 0 ≠ searchPageMeta 0 50 0 := by
  refine ⟨rfl, rfl, rfl, rfl, ?_⟩
  decide

/-- C2 (amended): whenever `totalCount > 0`, the plain listing path and
the filtered search path compute identical pagination metadata for the
same `(totalCount, limit, skip)`; at `totalCount = 0` they differ, in
`totalPages` (0 versus 1) and `showingFrom` (`skip + 1` versus 0). -/
theorem pagination_paths_agree_on_nonzero_count (totalCount : Nat)
    (reqLimit reqSkip : Int) (h : 0 < totalCount) :
    listPageMeta totalCount reqLimit reqSkip
      = searchPageMeta totalCount reqLimit reqSkip := by
  simp [listPageMeta, searchPageMeta, h]

/-- Witness for the amended C2 at `(totalCount, limit, skip) = (5, 50, 0)`. -/
theorem pagination_paths_agree_on_nonzero_count_witness :
    listPageMeta 5 50 0 = searchPageMeta 5 50 0 :=
  pagination_paths_agree_on_nonzero_count 5 50 0 (by decide)

/-- C3 (refuted; the code contradicts the intended escaping): for the
literal metacharacter input `searchText = "."`, the live
`build_search_query` places `"."` verbatim into every `$regex` clause —
`re.escape` would have produced `"\."` — while the parallel
`QueryBuilder.build_user_search_pipeline` in utils.py does escape the same
input.  So user input reaches the regex engine unescaped on the search
route. -/
theorem build_search_query_regex_unescaped :
    build_search_query (some ".") none none none
      = [("$or", QVal.orC (searchFields.map
          (fun f => (f, FieldCond.regexI "."))))] ∧
    buildUserSearchPipelineMatch (some ".") none none none
      = [("$or", QVal.orC (searchFields.map
          (fun f => (f, FieldCond.regexI "\\."))))] ∧
    reEscape "." = "\\." ∧
    ("." : String) ≠ "\\." := by
  exact ⟨rfl, rfl, rfl, by decide⟩

/-- C4 (refuted; the claim states the intended behaviour): when both a
non-empty `searchText` and `sessionPresence = "with"`
(`session_filter = "with_session"`) are supplied, the session block
assigns to the same top-level `"$or"` key as the search block, so the
final predicate consists of the session disjunction alone — the
name-field substring disjunction has been silently erased. -/
theorem with_session_overwrites_search_or :
    build_search_query (some "x") none none (some "with_session")
      = [("$or", QVal.orC sessionPresentClauses)] ∧
    QVal.orC sessionPresentClauses
      ≠ QVal.orC (searchFields.map (fun f => (f, FieldCond.regexI "x"))) := by
  exact ⟨rfl, by decide⟩

/-- C5 (refuted; the code contradicts its own `HTTPException(400)`): for
the out-of-set timeframe `"14d"`, `get_timeframe_filter` does raise a 400,
but every analytics endpoint wraps its body in `except Exception`, which
also catches `HTTPException`, so overview, commands, urls and summary
surface HTTP 500 (with the 400 only quoted inside the detail string), and
the daily-users endpoint never validates the timeframe at all and
succeeds. -/
theorem invalid_timeframe_not_rejected_with_400 :
    get_timeframe_filter "14d" = Except.error ⟨400, "Invalid timeframe"⟩ ∧
    get_analytics_overview "14d" = Except.error
      ⟨500, "Failed to get analytics overview: 400: Invalid timeframe"⟩ ∧
    get_command_stats "14d" = Except.error
      ⟨500, "Failed to get command stats: 400: Invalid timeframe"⟩ ∧
    get_url_stats "14d" = Except.error
      ⟨500, "Failed to get URL stats: 400: Invalid timeframe"⟩ ∧
    get_analytics_summary "14d" = Except.error
      ⟨500, "Failed to get analytics summary: 500: Failed to get analytics overview: 400: Invalid timeframe"⟩ ∧
    get_daily_active_users "14d" = Except.ok 0 := by
  exact ⟨rfl, rfl, rfl, rfl, rfl, rfl⟩

/-- C7: the bucket-key format is hourly (`"%Y-%m-%d %H:00"`) for
timeframes `"1d"` and `"3d"`, daily (`"%Y-%m-%d"`) for `"7d"` and
`"30d"`, and monthly (`"%Y-%m"`) for `"90d"`. -/
theorem get_date_grouping_bucket_formats :
    get_date_grouping "1d" = "%Y-%m-%d %H:00" ∧
    get_date_grouping "3d" = "%Y-%m-%d %H:00" ∧
    get_date_grouping "7d" = "%Y-%m-%d" ∧
    get_date_grouping "30d" = "%Y-%m-%d" ∧
    get_date_grouping "90d" = "%Y-%m" := by
  exact ⟨rfl, rfl, rfl, rfl, rfl⟩

/-- C8: a `dateFilter` string that `datetime.strptime(·, "%Y-%m-%d")`
rejects leaves the predicate exactly as if no `dateFilter` had been
supplied: the date clause is omitted, nothing is raised, and every other
clause is unchanged. -/
theorem malformed_date_filter_ignored (sq mf sf : Option String)
    (df : String) (h : strptimeYmd df = none) :
    build_search_query sq (some df) mf sf
      = build_search_query sq none mf sf := by
  unfold build_search_query
  by_cases hd : truthy (some df) = true
  · simp only [hd, if_true]
    have hg : (some df).getD "" = df := rfl
    rw [hg, h]
    rfl
  · simp only [hd]
    rfl

/-- Witness for C8 at the spec's example `dateFilter = "13-13-2024"`, with
a search text and membership filter also supplied. -/
theorem malformed_date_filter_ignored_witness :
    strptimeYmd "13-13-2024" = none ∧
    build_search_query (some "abc") (some "13-13-2024") (some "premium") none
      = build_search_query (some "abc") none (some "premium") none :=
  ⟨by decide,
   malformed_date_filter_ignored (some "abc") (some "premium") none
     "13-13-2024" (by decide)⟩

/-- C6: token verification fails with 401 in both cases, with
distinguishable reason strings.  For any decoder oracle: a request from
which no token can be extracted yields 401 with the no-token detail
(which contains, case-insensitively, "no" and "token"); a request
carrying a token whose signature has expired yields 401 with the expired
detail (which contains "expired"); and the two details are distinct
strings. -/
theorem verify_jwt_distinct_401_reasons (decode : String → DecodeResult)
    (ah ch ah2 ch2 : Option String) (t : String)
    (h1 : extract_jwt_from_request ah ch = none)
    (h2 : extract_jwt_from_request ah2 ch2 = some t)
    (h3 : t ≠ "")
    (h4 : decode t = DecodeResult.expired) :
    verify_jwt_token decode ah ch
      = Except.error ⟨401, "No authentication token found. Please login first."⟩ ∧
    verify_jwt_token decode ah2 ch2
      = Except.error ⟨401, "Token has expired. Please login again."⟩ ∧
    hasSubstr (lowerStr "No authentication token found. Please login first.")
      "no" = true ∧
    hasSubstr (lowerStr "No authentication token found. Please login first.")
      "token" = true ∧
    hasSubstr (lowerStr "Token has expired. Please login again.")
      "expired" = true ∧
    ("No authentication token found. Please login first." : String)
      ≠ "Token has expired. Please login again." := by
  refine ⟨?_, ?_, by decide, by decide, by decide, by decide⟩
  · unfold verify_jwt_token
    rw [h1]
  · unfold verify_jwt_token
    rw [h2]
    simp [h3, h4]

/-- Witness for C6: a request with no `Authorization` header and no
cookie, versus a request with `Authorization: Bearer abc` under a decoder
that reports the signature expired. -/
theorem verify_jwt_distinct_401_reasons_witness :
    verify_jwt_token (fun _ => DecodeResult.expired) none none
      = Except.error ⟨401, "No authentication token found. Please login first."⟩ ∧
    verify_jwt_token (fun _ => DecodeResult.expired) (some "Bearer abc") none
      = Except.error ⟨401, "Token has expired. Please login again."⟩ ∧
    hasSubstr (lowerStr "No authentication token found. Please login first.")
      "no" = true ∧
    hasSubstr (lowerStr "No authentication token found. Please login first.")
      "token" = true ∧
    hasSubstr (lowerStr "Token has expired. Please login again.")
      "expired" = true ∧
    ("No authentication token found. Please login first." : String)
      ≠ "Token has expired. Please login again." :=
  verify_jwt_distinct_401_reasons (fun _ => DecodeResult.expired)
    none none (some "Bearer abc") none "abc" (by decide) (by decide)
    (by decide) rfl

mutual
theorem convertEntry_idem : (v : BVal) → convertEntry (convertEntry v) = convertEntry v
  | BVal.oid _ => rfl
  | BVal.strV _ => rfl
  | BVal.intV _ => rfl
  | BVal.boolV _ => rfl
  | BVal.nullV => rfl
  | BVal.dict fs => by
    simp only [convertEntry, convertFields_idem fs]
  | BVal.arr xs => by
    simp only [convertEntry, convertItems_idem xs]
theorem convertFields_idem : (fs : BFields) → convertFields (convertFields fs) = convertFields fs
  | BFields.nil => rfl
  | BFields.cons k v rest => by
    simp only [convertFields, convertEntry_idem v, convertFields_idem rest]
theorem convertItems_idem : (xs : BItems) → convertItems (convertItems xs) = convertItems xs
  | BItems.nil => rfl
  | BItems.cons x rest => by
    simp only [convertItems, convertItem_idem x, convertItems_idem rest]
theorem convertItem_idem : (v : BVal) → convertItem (convertItem v) = convertItem v
  | BVal.oid _ => rfl
  | BVal.strV _ => rfl
  | BVal.intV _ => rfl
  | BVal.boolV _ => rfl
  | BVal.nullV => rfl
  | BVal.arr _ => rfl
  | BVal.dict fs => by
    simp only [convertItem, convertFields_idem fs]
end

/-- C9: identifier normalization is idempotent — for every nested
document value, `convert_object_ids (convert_object_ids v)
= convert_object_ids v` (both controllers define the identical method). -/
theorem convert_object_ids_idempotent (v : BVal) :
    convert_object_ids (convert_object_ids v) = convert_object_ids v := by
  cases v with
  | dict fs => simp only [convert_object_ids, convertFields_idem fs]
  | oid s => rfl
  | strV s => rfl
  | intV n => rfl
  | boolV b => rfl
  | nullV => rfl
  | arr xs => rfl

/-- C10: a supplied (non-empty) `membershipTier` whose lowercase form is
not one of the six aliases is not rejected and not alias-mapped:
whatever the other filters are, the built predicate carries an exact
equality clause on `Membership.tier` whose value is the caller's
original string, verbatim. -/
theorem unknown_membership_tier_verbatim (sq df sf : Option String)
    (m : String) (hm : m ≠ "")
    (hu : membershipMapping (lowerStr m) = none) :
    qlookup (build_search_query sq df (some m) sf) "Membership.tier"
      = some (QVal.cond (FieldCond.eqStr m)) := by
  have htm : truthy (some m) = true := by simp [truthy, hm]
  by_cases hsq : truthy sq = true <;>
    by_cases hdf : truthy df = true <;>
    by_cases hs1 : sf = some "with_session" <;>
    by_cases hs2 : sf = some "without_session" <;>
    cases hp : strptimeYmd (df.getD "") with
  | none =>
    simp [build_search_query, htm, hsq, hdf, hs1, hs2, hp, hu,
      dictSet, qlookup, List.find?]
  | some ymd =>
    obtain ⟨y, mo, d⟩ := ymd
    simp [build_search_query, htm, hsq, hdf, hs1, hs2, hp, hu,
      dictSet, qlookup, List.find?]

/-- Witness for C10 at `membershipTier = "Gold"` (lowercase `"gold"` is
not an alias), with no other filters. -/
theorem unknown_membership_tier_verbatim_witness :
    qlookup (build_search_query none none (some "Gold") none)
      "Membership.tier"
      = some (QVal.cond (FieldCond.eqStr "Gold")) :=
  unknown_membership_tier_verbatim none none none "Gold" (by decide)
    (by decide)
